import Mathlib

/-!
Shallow embedding of `src/odrive_ros2_control/src/odrive_hardware_interface.cpp`.

Doubles are modelled as `Option ℝ`: `none` stands for the IEEE NaN sentinel
("unknown" in the spec) and every arithmetic operation the interface performs
(negation, multiplication by a constant, division by a positive constant)
propagates NaN, which `Option.map` captures exactly. Outbound CAN traffic is
modelled as the list of frames a call hands to the transport; the transport
itself, logging and the ROS lifecycle plumbing are outside the embedded core.
-/

namespace odrive_ros2_control

/-- Modelled from the spec: device enum value for the idle axis state
(`odrive_enums.h` is not under src/); only distinctness of the enum values
matters to the claims. -/
def AXIS_STATE_IDLE : Nat := 1

/-- Modelled from the spec: device enum value for closed-loop control
(`odrive_enums.h` is not under src/). -/
def AXIS_STATE_CLOSED_LOOP_CONTROL : Nat := 8

/-- Modelled from the spec: device enum value for torque control mode
(`odrive_enums.h` is not under src/). -/
def CONTROL_MODE_TORQUE_CONTROL : Nat := 1

/-- Modelled from the spec: device enum value for velocity control mode
(`odrive_enums.h` is not under src/). -/
def CONTROL_MODE_VELOCITY_CONTROL : Nat := 2

/-- Modelled from the spec: device enum value for position control mode
(`odrive_enums.h` is not under src/). -/
def CONTROL_MODE_POSITION_CONTROL : Nat := 3

/-- Modelled from the spec: device enum value for passthrough input mode
(`odrive_enums.h` is not under src/). -/
def INPUT_MODE_PASSTHROUGH : Nat := 1

/-- Modelled from the spec: 5-bit command identifier of the encoder-estimates
message, per the device's published command set (`can_simple_messages.hpp` is
not under src/). -/
def Get_Encoder_Estimates_cmd_id : Nat := 0x09

/-- Modelled from the spec: 5-bit command identifier of the torques message,
per the device's published command set (`can_simple_messages.hpp` is not under
src/). -/
def Get_Torques_cmd_id : Nat := 0x1c

/-- Modelled from the spec: fixed payload length (two little-endian 32-bit
floats) of the encoder-estimates message (`can_simple_messages.hpp` is not
under src/). -/
def Get_Encoder_Estimates_msg_length : Nat := 8

/-- Modelled from the spec: fixed payload length (two little-endian 32-bit
floats) of the torques message (`can_simple_messages.hpp` is not under src/). -/
def Get_Torques_msg_length : Nat := 8

/-- Typed fields of the position-setpoint message (lines 299-324). -/
structure Set_Input_Pos_msg_t where
  Input_Pos : Option ℝ
  Vel_FF : Option ℝ
  Torque_FF : Option ℝ

/-- Typed fields of the velocity-setpoint message (lines 326-340). -/
structure Set_Input_Vel_msg_t where
  Input_Vel : Option ℝ
  Input_Torque_FF : Option ℝ

/-- Typed fields of the torque-setpoint message (lines 342-349). -/
structure Set_Input_Torque_msg_t where
  Input_Torque : Option ℝ

/-- Typed fields of the controller-mode message (lines 376, 381, 392-398). -/
structure Set_Controller_Mode_msg_t where
  Control_Mode : Nat
  Input_Mode : Nat

/-- Typed fields of the axis-state message (lines 370-371, 378, 382, 401). -/
structure Set_Axis_State_msg_t where
  Axis_Requested_State : Nat

/-- Typed fields of the clear-errors message (lines 377, 380). -/
structure Clear_Errors_msg_t where
  Identify : Nat

/-- Sum of the outbound message types the interface sends. -/
inductive OutMsg where
  | setInputPos (m : Set_Input_Pos_msg_t)
  | setInputVel (m : Set_Input_Vel_msg_t)
  | setInputTorque (m : Set_Input_Torque_msg_t)
  | setControllerMode (m : Set_Controller_Mode_msg_t)
  | setAxisState (m : Set_Axis_State_msg_t)
  | clearErrors (m : Clear_Errors_msg_t)

/-- Message-type tag of an outbound message, for stating selection properties. -/
inductive OutKind where
  | inputPos
  | inputVel
  | inputTorque
  | controllerMode
  | axisState
  | clearErr

/-- Tag of an outbound message. -/
def OutMsg.kind : OutMsg → OutKind
  | .setInputPos _ => .inputPos
  | .setInputVel _ => .inputVel
  | .setInputTorque _ => .inputTorque
  | .setControllerMode _ => .controllerMode
  | .setAxisState _ => .axisState
  | .clearErrors _ => .clearErr

/-- Modelled from the spec: 5-bit command identifiers of the outbound message
types, per the device's published command set (`can_simple_messages.hpp` is not
under src/). -/
def OutMsg.cmd_id : OutMsg → Nat
  | .setInputPos _ => 0x0c
  | .setInputVel _ => 0x0d
  | .setInputTorque _ => 0x0e
  | .setControllerMode _ => 0x0b
  | .setAxisState _ => 0x07
  | .clearErrors _ => 0x18

/-- Modelled from the spec: an inbound CAN frame with the codec's decode step
(`can_simple_messages.hpp`, not under src/) abstracted away: the payload is
represented by the two little-endian float fields that the two recognized
message types decode (`field0` = Pos_Estimate or Torque_Target, `field1` =
Vel_Estimate or Torque_Estimate), together with the on-wire payload length
`can_dlc` and the arbitration identifier `can_id`. -/
structure can_frame where
  can_id : Nat
  can_dlc : Nat
  field0 : ℝ
  field1 : ℝ

/-- One axis: configuration, commands, state and enabled-channel flags
(lines 49-107). -/
structure Axis where
  node_id_ : Nat
  transmission_ratio_ : ℝ
  reverse_axis_ : Bool
  pos_setpoint_ : Option ℝ
  vel_setpoint_ : Option ℝ
  torque_setpoint_ : Option ℝ
  pos_estimate_ : Option ℝ
  vel_estimate_ : Option ℝ
  torque_target_ : Option ℝ
  torque_estimate_ : Option ℝ
  pos_input_enabled_ : Bool
  vel_input_enabled_ : Bool
  torque_input_enabled_ : Bool

/-- Axis constructor together with the field initializers (lines 50-96):
setpoints start at 0.0, estimates at NaN, all input channels disabled. -/
def Axis.init (node_id : Nat) (transmission_ratio : ℝ) (reverse_axis : Bool) : Axis where
  node_id_ := node_id
  transmission_ratio_ := transmission_ratio
  reverse_axis_ := reverse_axis
  pos_setpoint_ := some 0
  vel_setpoint_ := some 0
  torque_setpoint_ := some 0
  pos_estimate_ := none
  vel_estimate_ := none
  torque_target_ := none
  torque_estimate_ := none
  pos_input_enabled_ := false
  vel_input_enabled_ := false
  torque_input_enabled_ := false

/-- An outbound frame as handed to the transport: arbitration identifier plus
the typed message (the byte encoding itself is the codec's concern). -/
structure SentFrame where
  can_id : Nat
  msg : OutMsg

/-- Axis::send (lines 98-106): the arbitration identifier is
`node_id_ << 5 | msg.cmd_id`. -/
def Axis.send (axis : Axis) (m : OutMsg) : SentFrame where
  can_id := axis.node_id_ <<< 5 ||| m.cmd_id
  msg := m

/-- Axis::on_can_msg (lines 411-438): dispatch on the low 5 bits of the
arbitration identifier; the source's `try_decode` compares `can_dlc` against
`Get_Encoder_Estimates_msg_t::msg_length` for every command, including
Get_Torques. Decoded revolutions are converted to radians by the 2π factor. -/
noncomputable def Axis.on_can_msg (axis : Axis) (frame : can_frame) : Axis :=
  let cmd := frame.can_id &&& 0x1f
  if cmd = Get_Encoder_Estimates_cmd_id then
    if frame.can_dlc < Get_Encoder_Estimates_msg_length then axis
    else { axis with
           pos_estimate_ := some (frame.field0 * (2 * Real.pi)),
           vel_estimate_ := some (frame.field1 * (2 * Real.pi)) }
  else if cmd = Get_Torques_cmd_id then
    if frame.can_dlc < Get_Encoder_Estimates_msg_length then axis
    else { axis with
           torque_target_ := some frame.field0,
           torque_estimate_ := some frame.field1 }
  else axis

namespace ODriveHardwareInterface

/-- Loop body of ODriveHardwareInterface::write for one axis (lines 296-354):
the frames this axis sends during one write cycle. In the reversed branches
the source's minus sign in `-flag ? v : 0.0f` binds to the bool condition
(truthy iff the flag is set), so the branch value `v` itself is not negated. -/
noncomputable def writeAxis (axis : Axis) : List SentFrame :=
  if axis.pos_input_enabled_ then
    let msg : Set_Input_Pos_msg_t :=
      if axis.reverse_axis_ = true then
        { Input_Pos := axis.pos_setpoint_.map (fun x => -x / (2 * Real.pi * axis.transmission_ratio_)),
          Vel_FF := if axis.vel_input_enabled_ then
              axis.vel_setpoint_.map (fun x => x / (2 * Real.pi * axis.transmission_ratio_))
            else some 0,
          Torque_FF := if axis.torque_input_enabled_ then
              axis.torque_setpoint_.map (fun x => x / axis.transmission_ratio_)
            else some 0 }
      else
        { Input_Pos := axis.pos_setpoint_.map (fun x => x / (2 * Real.pi * axis.transmission_ratio_)),
          Vel_FF := if axis.vel_input_enabled_ then
              axis.vel_setpoint_.map (fun x => x / (2 * Real.pi * axis.transmission_ratio_))
            else some 0,
          Torque_FF := if axis.torque_input_enabled_ then
              axis.torque_setpoint_.map (fun x => x / axis.transmission_ratio_)
            else some 0 }
    [axis.send (OutMsg.setInputPos msg)]
  else if axis.vel_input_enabled_ then
    let msg : Set_Input_Vel_msg_t :=
      if axis.reverse_axis_ = true then
        { Input_Vel := axis.vel_setpoint_.map (fun x => -x / (2 * Real.pi * axis.transmission_ratio_)),
          Input_Torque_FF := if axis.torque_input_enabled_ then
              axis.torque_setpoint_.map (fun x => x / axis.transmission_ratio_)
            else some 0 }
      else
        { Input_Vel := axis.vel_setpoint_.map (fun x => x / (2 * Real.pi * axis.transmission_ratio_)),
          Input_Torque_FF := if axis.torque_input_enabled_ then
              axis.torque_setpoint_.map (fun x => x / axis.transmission_ratio_)
            else some 0 }
    [axis.send (OutMsg.setInputVel msg)]
  else if axis.torque_input_enabled_ then
    let msg : Set_Input_Torque_msg_t :=
      if axis.reverse_axis_ = true then
        { Input_Torque := axis.torque_setpoint_.map (fun x => -x / axis.transmission_ratio_) }
      else
        { Input_Torque := axis.torque_setpoint_.map (fun x => x / axis.transmission_ratio_) }
    [axis.send (OutMsg.setInputTorque msg)]
  else
    []

/-- ODriveHardwareInterface::set_axis_command_mode (lines 367-409): the updated
axis together with the frames the call sends. -/
def set_axis_command_mode (active_ : Bool) (axis : Axis) : Axis × List SentFrame :=
  if active_ = false then
    (axis, [axis.send (OutMsg.setAxisState { Axis_Requested_State := AXIS_STATE_IDLE })])
  else if axis.pos_input_enabled_ then
    let axis2 : Axis :=
      { axis with pos_setpoint_ := axis.pos_estimate_,
                  vel_setpoint_ := some 0,
                  torque_setpoint_ := some 0 }
    (axis2,
     [axis2.send (OutMsg.setControllerMode
        { Control_Mode := CONTROL_MODE_POSITION_CONTROL, Input_Mode := INPUT_MODE_PASSTHROUGH }),
      axis2.send (OutMsg.clearErrors { Identify := 0 }),
      axis2.send (OutMsg.setAxisState { Axis_Requested_State := AXIS_STATE_CLOSED_LOOP_CONTROL })])
  else if axis.vel_input_enabled_ then
    (axis,
     [axis.send (OutMsg.setControllerMode
        { Control_Mode := CONTROL_MODE_VELOCITY_CONTROL, Input_Mode := INPUT_MODE_PASSTHROUGH }),
      axis.send (OutMsg.clearErrors { Identify := 0 }),
      axis.send (OutMsg.setAxisState { Axis_Requested_State := AXIS_STATE_CLOSED_LOOP_CONTROL })])
  else if axis.torque_input_enabled_ then
    (axis,
     [axis.send (OutMsg.setControllerMode
        { Control_Mode := CONTROL_MODE_TORQUE_CONTROL, Input_Mode := INPUT_MODE_PASSTHROUGH }),
      axis.send (OutMsg.clearErrors { Identify := 0 }),
      axis.send (OutMsg.setAxisState { Axis_Requested_State := AXIS_STATE_CLOSED_LOOP_CONTROL })])
  else
    (axis, [axis.send (OutMsg.setAxisState { Axis_Requested_State := AXIS_STATE_IDLE })])

/-- ODriveHardwareInterface::on_can_msg (lines 359-365): forward the frame to
every axis whose configured node address equals the arbitration identifier
shifted right by 5 bits. -/
noncomputable def on_can_msg : List Axis → can_frame → List Axis
  | [], _ => []
  | axis :: rest, frame =>
    (if frame.can_id >>> 5 = axis.node_id_ then axis.on_can_msg frame else axis)
      :: on_can_msg rest frame

/-- Per-axis transform of ODriveHardwareInterface::read (lines 279-289):
multiply each estimate by `-transmission_ratio_` when the axis is not
reversed, by `+transmission_ratio_` when it is. -/
noncomputable def readTransformAxis (axis : Axis) : Axis :=
  if axis.reverse_axis_ = false then
    { axis with
      pos_estimate_ := axis.pos_estimate_.map (fun x => x * -axis.transmission_ratio_),
      vel_estimate_ := axis.vel_estimate_.map (fun x => x * -axis.transmission_ratio_),
      torque_estimate_ := axis.torque_estimate_.map (fun x => x * -axis.transmission_ratio_) }
  else
    { axis with
      pos_estimate_ := axis.pos_estimate_.map (fun x => x * axis.transmission_ratio_),
      vel_estimate_ := axis.vel_estimate_.map (fun x => x * axis.transmission_ratio_),
      torque_estimate_ := axis.torque_estimate_.map (fun x => x * axis.transmission_ratio_) }

/-- ODriveHardwareInterface::read (lines 271-292): drain the pending inbound
frames through the dispatcher, then apply the sign/gear-ratio transform to
every axis. -/
noncomputable def read (axes : List Axis) (pending : List can_frame) : List Axis :=
  (pending.foldl on_can_msg axes).map readTransformAxis

end ODriveHardwareInterface

/-- C3: for every axis and every combination of the three enabled-channel
booleans, one write cycle sends exactly one setpoint message for that axis,
chosen by the fixed priority position > velocity > torque, and sends no
message for that axis when no channel is enabled. -/
theorem write_selects_one_setpoint (axis : Axis) :
    (ODriveHardwareInterface.writeAxis axis).map (fun s => s.msg.kind) =
      (if axis.pos_input_enabled_ then [OutKind.inputPos]
       else if axis.vel_input_enabled_ then [OutKind.inputVel]
       else if axis.torque_input_enabled_ then [OutKind.inputTorque]
       else []) := by
  cases hp : axis.pos_input_enabled_ <;> cases hv : axis.vel_input_enabled_ <;>
    cases ht : axis.torque_input_enabled_ <;>
      simp [ODriveHardwareInterface.writeAxis, Axis.send, OutMsg.kind, hp, hv, ht]

/-- C6: an inbound frame whose command identifier is a recognized message type
but whose payload length is shorter than the required message length leaves
the whole axis, in particular every AxisState field, unchanged. -/
theorem short_frame_leaves_axis_unchanged (axis : Axis) (frame : can_frame)
    (h : (frame.can_id &&& 0x1f = Get_Encoder_Estimates_cmd_id ∧
            frame.can_dlc < Get_Encoder_Estimates_msg_length) ∨
         (frame.can_id &&& 0x1f = Get_Torques_cmd_id ∧
            frame.can_dlc < Get_Torques_msg_length)) :
    axis.on_can_msg frame = axis := by
  rcases h with ⟨hc, hl⟩ | ⟨hc, hl⟩
  · simp [Axis.on_can_msg, hc, hl]
  · have hl8 : frame.can_dlc < Get_Encoder_Estimates_msg_length := hl
    have hne : Get_Torques_cmd_id ≠ Get_Encoder_Estimates_cmd_id := by decide
    simp [Axis.on_can_msg, hc, hl8, hne]

/-- Witness for C6 at a concrete truncated encoder-estimates frame. -/
theorem short_frame_leaves_axis_unchanged_witness :
    (Axis.init 1 1 false).on_can_msg { can_id := 9, can_dlc := 4, field0 := 0, field1 := 0 } =
      Axis.init 1 1 false :=
  short_frame_leaves_axis_unchanged _ _ (Or.inl ⟨by decide, by decide⟩)

/-- C7: with the active flag false, the mode-switch evaluation sends exactly
one request-idle-state message to the axis, regardless of which channels are
enabled, and no controller-mode, clear-errors or closed-loop message. -/
theorem inactive_mode_switch_sends_idle (axis : Axis) :
    ODriveHardwareInterface.set_axis_command_mode false axis =
      (axis, [axis.send (OutMsg.setAxisState { Axis_Requested_State := AXIS_STATE_IDLE })]) := by
  rfl

/-- C9: an inbound frame is forwarded to an axis's decoder exactly when the
frame's arbitration identifier shifted right by 5 bits equals that axis's
configured node address; a frame whose address matches no configured axis
causes no state change in any axis. -/
theorem frame_routing (axes : List Axis) (frame : can_frame) :
    ODriveHardwareInterface.on_can_msg axes frame =
      axes.map (fun axis =>
        if frame.can_id >>> 5 = axis.node_id_ then axis.on_can_msg frame else axis) ∧
    ((∀ axis ∈ axes, frame.can_id >>> 5 ≠ axis.node_id_) →
      ODriveHardwareInterface.on_can_msg axes frame = axes) := by
  constructor
  · induction axes with
    | nil => rfl
    | cons a rest ih => simp [ODriveHardwareInterface.on_can_msg, ih]
  · induction axes with
    | nil => intro _; rfl
    | cons a rest ih =>
      intro hno
      have ha : frame.can_id >>> 5 ≠ a.node_id_ := hno a (by simp)
      have hr := ih (fun x hx => hno x (by simp [hx]))
      simp [ODriveHardwareInterface.on_can_msg, ha, hr]

/-- Witness for C9: a frame addressed to node 4 leaves the single configured
axis, addressed 3, unchanged. -/
theorem frame_routing_witness :
    ODriveHardwareInterface.on_can_msg [Axis.init 3 1 false]
      { can_id := 128, can_dlc := 8, field0 := 0, field1 := 0 } = [Axis.init 3 1 false] :=
  (frame_routing _ _).2 (by
    intro axis hax
    simp only [List.mem_singleton] at hax
    subst hax
    decide)

/-- Concrete axis of the spec's position scenario: address 5, gear ratio 2.0,
not reversed, position channel enabled, position setpoint π radians. -/
noncomputable def axScenarioPos : Axis :=
  { Axis.init 5 2 false with
    pos_input_enabled_ := true
    pos_setpoint_ := some Real.pi }

/-- C1 counterexample: on the scenario axis (gear_ratio 2.0, reversed false,
pos_setpoint π) the write cycle sends Input_Pos = +0.25, not −0.25 as the
claim states. -/
theorem write_pos_sign_counterexample :
    ∃ m : Set_Input_Pos_msg_t,
      ODriveHardwareInterface.writeAxis axScenarioPos =
        [axScenarioPos.send (OutMsg.setInputPos m)] ∧
      m.Input_Pos = some ((1 : ℝ) / 4) ∧ m.Input_Pos ≠ some (-((1 : ℝ) / 4)) := by
  have hval : Real.pi / (2 * Real.pi * 2) = (1 : ℝ) / 4 := by
    have hπ : Real.pi ≠ 0 := Real.pi_ne_zero
    field_simp
    ring
  refine ⟨{ Input_Pos := some ((1 : ℝ) / 4), Vel_FF := some 0, Torque_FF := some 0 },
    ?_, rfl, ?_⟩
  · simp [ODriveHardwareInterface.writeAxis, axScenarioPos, Axis.init, Axis.send, hval]
  · simp only [ne_eq, Option.some.injEq]
    norm_num

/-- C1 (amended): with the position channel enabled, the write cycle sends one
position-setpoint message whose Input_Pos is the joint position setpoint
divided by (2π × gear ratio), with a NEGATIVE sign when the axis IS reversed
and a POSITIVE sign when it is not; on the scenario axis (gear_ratio 2.0,
reversed false, pos_setpoint π) the sent Input_Pos is +0.25. -/
theorem write_pos_input_transform :
    (∀ axis : Axis, axis.pos_input_enabled_ = true →
      ∃ m : Set_Input_Pos_msg_t,
        ODriveHardwareInterface.writeAxis axis = [axis.send (OutMsg.setInputPos m)] ∧
        m.Input_Pos = axis.pos_setpoint_.map (fun x =>
          (if axis.reverse_axis_ = true then -x else x) /
            (2 * Real.pi * axis.transmission_ratio_))) ∧
    (∃ m : Set_Input_Pos_msg_t,
      ODriveHardwareInterface.writeAxis axScenarioPos =
        [axScenarioPos.send (OutMsg.setInputPos m)] ∧
      m.Input_Pos = some ((1 : ℝ) / 4)) := by
  constructor
  · intro axis hp
    cases hr : axis.reverse_axis_
    · refine ⟨{ Input_Pos := axis.pos_setpoint_.map
                  (fun x => x / (2 * Real.pi * axis.transmission_ratio_)),
                Vel_FF := if axis.vel_input_enabled_ then
                    axis.vel_setpoint_.map (fun x => x / (2 * Real.pi * axis.transmission_ratio_))
                  else some 0,
                Torque_FF := if axis.torque_input_enabled_ then
                    axis.torque_setpoint_.map (fun x => x / axis.transmission_ratio_)
                  else some 0 }, ?_, ?_⟩
      · simp [ODriveHardwareInterface.writeAxis, hp, hr]
      · simp [hr]
    · refine ⟨{ Input_Pos := axis.pos_setpoint_.map
                  (fun x => -x / (2 * Real.pi * axis.transmission_ratio_)),
                Vel_FF := if axis.vel_input_enabled_ then
                    axis.vel_setpoint_.map (fun x => x / (2 * Real.pi * axis.transmission_ratio_))
                  else some 0,
                Torque_FF := if axis.torque_input_enabled_ then
                    axis.torque_setpoint_.map (fun x => x / axis.transmission_ratio_)
                  else some 0 }, ?_, ?_⟩
      · simp [ODriveHardwareInterface.writeAxis, hp, hr]
      · simp [hr]
  · have hval : Real.pi / (2 * Real.pi * 2) = (1 : ℝ) / 4 := by
      have hπ : Real.pi ≠ 0 := Real.pi_ne_zero
      field_simp
      ring
    refine ⟨{ Input_Pos := some ((1 : ℝ) / 4), Vel_FF := some 0, Torque_FF := some 0 },
      ?_, rfl⟩
    simp [ODriveHardwareInterface.writeAxis, axScenarioPos, Axis.init, Axis.send, hval]

/-- Witness for C1 (amended) at the scenario axis. -/
theorem write_pos_input_transform_witness :
    ∃ m : Set_Input_Pos_msg_t,
      ODriveHardwareInterface.writeAxis axScenarioPos =
        [axScenarioPos.send (OutMsg.setInputPos m)] ∧
      m.Input_Pos = axScenarioPos.pos_setpoint_.map (fun x =>
        (if axScenarioPos.reverse_axis_ = true then -x else x) /
          (2 * Real.pi * axScenarioPos.transmission_ratio_)) :=
  write_pos_input_transform.1 axScenarioPos rfl

/-- Reversed axis (gear ratio 1) with all three channels enabled,
pos_setpoint = vel_setpoint = 2π, torque_setpoint = 1. -/
noncomputable def axRevAll : Axis :=
  { Axis.init 1 1 true with
    pos_input_enabled_ := true
    vel_input_enabled_ := true
    torque_input_enabled_ := true
    pos_setpoint_ := some (2 * Real.pi)
    vel_setpoint_ := some (2 * Real.pi)
    torque_setpoint_ := some 1 }

/-- Reversed axis (gear ratio 1) with velocity and torque channels enabled,
vel_setpoint = 2π, torque_setpoint = 1. -/
noncomputable def axRevVelTorque : Axis :=
  { Axis.init 1 1 true with
    vel_input_enabled_ := true
    torque_input_enabled_ := true
    vel_setpoint_ := some (2 * Real.pi)
    torque_setpoint_ := some 1 }

/-- C2 evaluated at concrete reversed axes: the primary setpoint is negated
(Input_Pos = −1, Input_Vel = −1) but the feed-forward terms come out unnegated
(Vel_FF = +1, Torque_FF = +1, Input_Torque_FF = +1), because in the source the
minus sign in the feed-forward ternaries binds to the bool condition rather
than to the value. -/
theorem reversed_feedforward_not_negated :
    ODriveHardwareInterface.writeAxis axRevAll =
      [axRevAll.send (OutMsg.setInputPos
        { Input_Pos := some (-1 : ℝ), Vel_FF := some (1 : ℝ), Torque_FF := some (1 : ℝ) })] ∧
    ODriveHardwareInterface.writeAxis axRevVelTorque =
      [axRevVelTorque.send (OutMsg.setInputVel
        { Input_Vel := some (-1 : ℝ), Input_Torque_FF := some (1 : ℝ) })] := by
  have h1 : 2 * Real.pi / (2 * Real.pi) = (1 : ℝ) := div_self (by positivity)
  have h2 : -(2 * Real.pi) / (2 * Real.pi) = (-1 : ℝ) := by rw [neg_div, h1]
  have h3 : 2 * Real.pi / (2 * Real.pi * 1) = (1 : ℝ) := by rw [mul_one, h1]
  have h4 : -(2 * Real.pi) / (2 * Real.pi * 1) = (-1 : ℝ) := by rw [mul_one, h2]
  constructor <;>
    simp [ODriveHardwareInterface.writeAxis, axRevAll, axRevVelTorque, Axis.init,
      Axis.send, h1, h2, h3, h4]

/-- Axis of the spec's read scenario: address 1, gear ratio 3.0, not
reversed. -/
noncomputable def axScenarioRead : Axis := Axis.init 1 3 false

/-- Inbound encoder-estimates frame of the read scenario: addressed to node 1,
command 0x09, full 8-byte payload, Pos_Estimate = 0.5 revolutions. -/
noncomputable def frScenarioRead : can_frame :=
  { can_id := 1 <<< 5 ||| Get_Encoder_Estimates_cmd_id, can_dlc := 8,
    field0 := 1 / 2, field1 := 0 }

/-- C4: the read cycle multiplies each axis's position, velocity and torque
estimates by −gear_ratio when the axis is not reversed and by +gear_ratio when
it is; on the scenario axis (gear_ratio 3.0, reversed false) an encoder frame
carrying Pos_Estimate = 0.5 revolutions yields pos_estimate = −3π after the
read cycle. -/
theorem read_transform_sign_and_gear :
    (∀ axis : Axis,
      (ODriveHardwareInterface.readTransformAxis axis).pos_estimate_ =
        axis.pos_estimate_.map (fun x => x *
          (if axis.reverse_axis_ = true then axis.transmission_ratio_
           else -axis.transmission_ratio_)) ∧
      (ODriveHardwareInterface.readTransformAxis axis).vel_estimate_ =
        axis.vel_estimate_.map (fun x => x *
          (if axis.reverse_axis_ = true then axis.transmission_ratio_
           else -axis.transmission_ratio_)) ∧
      (ODriveHardwareInterface.readTransformAxis axis).torque_estimate_ =
        axis.torque_estimate_.map (fun x => x *
          (if axis.reverse_axis_ = true then axis.transmission_ratio_
           else -axis.transmission_ratio_))) ∧
    (ODriveHardwareInterface.read [axScenarioRead] [frScenarioRead]).map Axis.pos_estimate_ =
      [some (-(3 * Real.pi))] := by
  constructor
  · intro axis
    cases hr : axis.reverse_axis_ <;>
      simp [ODriveHardwareInterface.readTransformAxis, hr]
  · have hand : (41 : Nat) &&& 31 = 9 := by decide
    simp [ODriveHardwareInterface.read, ODriveHardwareInterface.on_can_msg, Axis.on_can_msg,
      ODriveHardwareInterface.readTransformAxis, axScenarioRead, frScenarioRead, Axis.init,
      Get_Encoder_Estimates_cmd_id, Get_Torques_cmd_id, Get_Encoder_Estimates_msg_length, hand]
    ring

/-- Axis with gear ratio 1, not reversed, and known estimates, used to show
that two frame-less read cycles can leave the estimates unchanged. -/
noncomputable def axUnitGear : Axis :=
  { Axis.init 7 1 false with
    pos_estimate_ := some 5
    vel_estimate_ := some 2
    torque_estimate_ := some 3 }

/-- C5 counterexample: this axis satisfies the claim's hypothesis
(reversed = false) yet two consecutive read cycles with no inbound frames
leave it, and in particular all its estimates, unchanged, because each cycle
multiplies by −1. -/
theorem read_idle_cycles_unchanged_counterexample :
    axUnitGear.reverse_axis_ = false ∧ axUnitGear.transmission_ratio_ = 1 ∧
    ODriveHardwareInterface.read (ODriveHardwareInterface.read [axUnitGear] []) [] =
      [axUnitGear] := by
  refine ⟨rfl, rfl, ?_⟩
  simp [ODriveHardwareInterface.read, ODriveHardwareInterface.readTransformAxis,
    axUnitGear, Axis.init]

/-- C5 (amended): the read cycle applies the sign/gear-ratio multiplication
unconditionally, even for an axis that received no inbound frame; for any axis
whose squared gear ratio differs from 1 and whose position estimate is a known
nonzero value, two consecutive frame-less read cycles change the position
estimate, multiplying it by gear_ratio². -/
theorem read_idle_cycles_rescale (axis : Axis) (x : ℝ)
    (hx : axis.pos_estimate_ = some x) (h0 : x ≠ 0)
    (hg : axis.transmission_ratio_ ^ 2 ≠ 1) :
    ∃ axis2 : Axis,
      ODriveHardwareInterface.read (ODriveHardwareInterface.read [axis] []) [] = [axis2] ∧
      axis2.pos_estimate_ = some (x * axis.transmission_ratio_ ^ 2) ∧
      axis2.pos_estimate_ ≠ axis.pos_estimate_ := by
  have hpos : (ODriveHardwareInterface.readTransformAxis
      (ODriveHardwareInterface.readTransformAxis axis)).pos_estimate_ =
      some (x * axis.transmission_ratio_ ^ 2) := by
    cases hr : axis.reverse_axis_ <;>
      simp [ODriveHardwareInterface.readTransformAxis, hr, hx] <;> ring
  refine ⟨_, rfl, hpos, ?_⟩
  rw [hpos, hx]
  simp only [ne_eq, Option.some.injEq]
  intro heq
  exact hg (mul_left_cancel₀ h0 (heq.trans (mul_one x).symm))

/-- Axis witnessing the amended C5: gear ratio 2, known position estimate 1. -/
noncomputable def axGearTwo : Axis :=
  { Axis.init 2 2 false with pos_estimate_ := some 1 }

/-- Witness for C5 (amended) at gear ratio 2. -/
theorem read_idle_cycles_rescale_witness :
    ∃ axis2 : Axis,
      ODriveHardwareInterface.read (ODriveHardwareInterface.read [axGearTwo] []) [] =
        [axis2] ∧
      axis2.pos_estimate_ = some ((1 : ℝ) * axGearTwo.transmission_ratio_ ^ 2) ∧
      axis2.pos_estimate_ ≠ axGearTwo.pos_estimate_ :=
  read_idle_cycles_rescale axGearTwo 1 rfl (by norm_num)
    (by norm_num [axGearTwo, Axis.init])

/-- C8: with the system active and the position channel enabled, the
mode-switch evaluation seeds the position setpoint from the current position
estimate, zeroes the velocity and torque setpoints, and sends exactly three
messages in order: set-controller-mode (position), clear-errors, request
closed-loop-control. -/
theorem active_position_mode_switch (axis : Axis) (h : axis.pos_input_enabled_ = true) :
    ODriveHardwareInterface.set_axis_command_mode true axis =
      ({ axis with
         pos_setpoint_ := axis.pos_estimate_
         vel_setpoint_ := some 0
         torque_setpoint_ := some 0 },
       [axis.send (OutMsg.setControllerMode
          { Control_Mode := CONTROL_MODE_POSITION_CONTROL,
            Input_Mode := INPUT_MODE_PASSTHROUGH }),
        axis.send (OutMsg.clearErrors { Identify := 0 }),
        axis.send (OutMsg.setAxisState
          { Axis_Requested_State := AXIS_STATE_CLOSED_LOOP_CONTROL })]) := by
  simp [ODriveHardwareInterface.set_axis_command_mode, h, Axis.send]

/-- Reversed axis with gear ratio 2, position channel enabled and a known
position estimate, for the C8 witness. -/
noncomputable def axPosEnabled : Axis :=
  { Axis.init 3 2 true with
    pos_input_enabled_ := true
    pos_estimate_ := some 4 }

/-- Witness for C8 at a concrete position-enabled axis. -/
theorem active_position_mode_switch_witness :
    ODriveHardwareInterface.set_axis_command_mode true axPosEnabled =
      ({ axPosEnabled with
         pos_setpoint_ := axPosEnabled.pos_estimate_
         vel_setpoint_ := some 0
         torque_setpoint_ := some 0 },
       [axPosEnabled.send (OutMsg.setControllerMode
          { Control_Mode := CONTROL_MODE_POSITION_CONTROL,
            Input_Mode := INPUT_MODE_PASSTHROUGH }),
        axPosEnabled.send (OutMsg.clearErrors { Identify := 0 }),
        axPosEnabled.send (OutMsg.setAxisState
          { Axis_Requested_State := AXIS_STATE_CLOSED_LOOP_CONTROL })]) :=
  active_position_mode_switch axPosEnabled rfl

/-- C10: an axis whose position estimate still holds the initial NaN sentinel
(modelled as `none`, exactly as the constructor leaves it) and whose position
channel is enabled has that sentinel copied into the position setpoint by the
mode switch, and the next write cycle then sends a position-setpoint message
whose Input_Pos is the sentinel; no guard replaces it with a finite value. -/
theorem nan_seed_propagates_to_input_pos (axis : Axis)
    (hp : axis.pos_input_enabled_ = true) (he : axis.pos_estimate_ = none) :
    (∀ (n : Nat) (g : ℝ) (r : Bool), (Axis.init n g r).pos_estimate_ = none) ∧
    (ODriveHardwareInterface.set_axis_command_mode true axis).1.pos_setpoint_ = none ∧
    (ODriveHardwareInterface.writeAxis
        (ODriveHardwareInterface.set_axis_command_mode true axis).1).map
      (fun s => s.msg.kind) = [OutKind.inputPos] ∧
    ∀ s ∈ ODriveHardwareInterface.writeAxis
        (ODriveHardwareInterface.set_axis_command_mode true axis).1,
      ∀ m : Set_Input_Pos_msg_t, s.msg = OutMsg.setInputPos m → m.Input_Pos = none := by
  have hseed : (ODriveHardwareInterface.set_axis_command_mode true axis).1 =
      { axis with
        pos_setpoint_ := none
        vel_setpoint_ := some 0
        torque_setpoint_ := some 0 } := by
    simp [ODriveHardwareInterface.set_axis_command_mode, hp, he]
  refine ⟨fun n g r => rfl, ?_, ?_, ?_⟩
  · rw [hseed]
  · rw [hseed]
    cases hr : axis.reverse_axis_ <;>
      simp [ODriveHardwareInterface.writeAxis, hp, hr, Axis.send, OutMsg.kind]
  · rw [hseed]
    intro s hs m hm
    cases hr : axis.reverse_axis_ <;>
      (simp [ODriveHardwareInterface.writeAxis, hp, hr, Axis.send] at hs;
        subst hs;
        injection hm with hmm;
        subst hmm;
        rfl)

/-- Freshly constructed axis (position estimate still the NaN sentinel) whose
position channel has been enabled, for the C10 witness. -/
noncomputable def axNanPos : Axis :=
  { Axis.init 6 2 false with pos_input_enabled_ := true }

/-- Witness for C10 at a freshly constructed position-enabled axis. -/
theorem nan_seed_propagates_to_input_pos_witness :
    (∀ (n : Nat) (g : ℝ) (r : Bool), (Axis.init n g r).pos_estimate_ = none) ∧
    (ODriveHardwareInterface.set_axis_command_mode true axNanPos).1.pos_setpoint_ = none ∧
    (ODriveHardwareInterface.writeAxis
        (ODriveHardwareInterface.set_axis_command_mode true axNanPos).1).map
      (fun s => s.msg.kind) = [OutKind.inputPos] ∧
    ∀ s ∈ ODriveHardwareInterface.writeAxis
        (ODriveHardwareInterface.set_axis_command_mode true axNanPos).1,
      ∀ m : Set_Input_Pos_msg_t, s.msg = OutMsg.setInputPos m → m.Input_Pos = none :=
  nan_seed_propagates_to_input_pos axNanPos rfl rfl

end odrive_ros2_control
